import Mathlib

/-!
# Verification of the digital-picture-frame slideshow engine

Shallow embedding of the photo source (src/photos.rs, FilePhotoLoader) and of
the GTK timer-driven slideshow (src/ui.rs).  The filesystem and the URL
library are external collaborators and are modelled as an environment record
FS whose fields stand for fs::read_dir, FsPath::canonicalize,
Url::from_file_path and Url::to_file_path.  One FS value describes the world
as one call observes it; successive calls may observe different FS values,
which models directories that change between calls.

The Rust function load_next_photo restarts itself by a recursive call when
the enumeration cursor is exhausted.  The embedding indexes the function by
fuel and marks fuel exhaustion with a dedicated outcome constructor, so that
boundedness of the recursion is a provable statement rather than an
assumption.  The internal unwrap of the cursor Option is likewise modelled
by a dedicated outcome constructor standing for a Rust panic.
-/

/-- An I/O error cause, as carried by std::io::Error. -/
inductive IoError where
  | notFound
  | permissionDenied
  | notADirectory
  | other (msg : String)
deriving DecidableEq, Repr

/-- A filesystem path. Paths are opaque to the slideshow engine. -/
abbrev FsPath := String

/-- A URL, as produced by Url::from_file_path. Opaque beyond equality. -/
abbrev Url := String

/-- The kind of a directory entry. The Rust code never inspects it; it is
recorded so that the absence of filtering is expressible. -/
inductive FileKind where
  | file
  | directory
  | symlink
deriving DecidableEq, Repr

/-- One entry of a directory listing, as returned by fs::read_dir:
the path of the entry (DirEntry::path) and its kind. -/
structure DirEntry where
  path : FsPath
  kind : FileKind
deriving DecidableEq, Repr

deriving instance DecidableEq for Except

/-- The environment: filesystem and URL-library capabilities consumed by the
engine.  read_dir is the result of listing the base directory at the moment
of the call: either an I/O error (unreadable directory) or the finite list
of items the iterator will yield, each itself either an entry or an I/O
error, in the order the platform produces them (unspecified, so arbitrary
here). -/
structure FS where
  read_dir : Except IoError (List (Except IoError DirEntry))
  canonicalize : FsPath → Except IoError FsPath
  from_file_path : FsPath → Option Url
  to_file_path : Url → Option FsPath

/-- The error kinds a load_next_photo call can produce.  In the Rust code
all four are anyhow::Error values; the constructors record which code path
produced the error, matching the error taxonomy of the specification:
directoryUnreadable for a failed fs::read_dir, noPhotosFound for an empty
listing, entryError for an Err item yielded by the ReadDir iterator, and
resolutionFailed for a failed canonicalize (with its I/O cause) or a failed
Url::from_file_path (cause none). -/
inductive SourceError where
  | directoryUnreadable (cause : IoError)
  | noPhotosFound
  | entryError (cause : IoError)
  | resolutionFailed (cause : Option IoError)
deriving DecidableEq, Repr

/-- The photo source state: base directory (immutable) and the optional
enumeration cursor, mirroring struct FilePhotoLoader.  The cursor holds the
not-yet-consumed suffix of the current listing pass. -/
structure FilePhotoLoader where
  base_directory : String
  photo_iterator : Option (List (Except IoError DirEntry))
deriving DecidableEq, Repr

/-- FilePhotoLoader::new — constructed with no enumeration started. -/
def FilePhotoLoader.new (base_directory : String) : FilePhotoLoader :=
  { base_directory := base_directory, photo_iterator := none }

/-- Resolution of one listed entry to a photo reference:
entry.path().canonicalize() followed by Url::from_file_path, as in the
Some(Ok(entry)) arm of load_next_photo. -/
def resolve_entry (fs : FS) (e : DirEntry) : Except SourceError Url :=
  match fs.canonicalize e.path with
  | .error io => .error (.resolutionFailed (some io))
  | .ok abs =>
    match fs.from_file_path abs with
    | none => .error (.resolutionFailed none)
    | some u => .ok u

/-- Consumption of one item yielded by the cursor: the Some(Ok entry) and
Some(Err e) arms of the match in load_next_photo. -/
def consume_entry (fs : FS) : Except IoError DirEntry → Except SourceError Url
  | .ok e => resolve_entry fs e
  | .error io => .error (.entryError io)

/-- The observable outcome of one load_next_photo call.  ok and error are
the two Result values the Rust function can return; panicked stands for a
panic of the internal unwrap (proved unreachable); outOfFuel is an artifact
of the fuel-indexed embedding (proved unreachable for fuel at least two) and
corresponds to no behaviour of the code. -/
inductive LoadOutcome where
  | ok (u : Url)
  | error (e : SourceError)
  | panicked
  | outOfFuel
deriving DecidableEq, Repr

/-- Embedding of Result as LoadOutcome. -/
def outcome : Except SourceError Url → LoadOutcome
  | .ok u => .ok u
  | .error e => .error e

/-- The leading block of load_next_photo: if the cursor is absent, list the
base directory; fail with the propagated I/O cause when the listing cannot
be opened, fail with noPhotosFound when peek sees no item, and otherwise
install the listing as the new cursor.  When a cursor is present the block
is skipped. -/
def init_iterator (l : FilePhotoLoader) (fs : FS) :
    Except SourceError FilePhotoLoader :=
  match l.photo_iterator with
  | some _ => .ok l
  | none =>
    match fs.read_dir with
    | .error e => .error (.directoryUnreadable e)
    | .ok entries =>
      if entries.isEmpty then .error .noPhotosFound
      else .ok { l with photo_iterator := some entries }

/-- FilePhotoLoader::load_next_photo, indexed by fuel to account for the
restart-by-recursion at exhaustion.  An early error return leaves the state
as it was at entry.  Consuming an item advances the cursor past it, whether
resolution succeeds or not.  An exhausted cursor is dropped and the call
recurses on the fresh state, spending one unit of fuel. -/
def load_next_photo : Nat → FilePhotoLoader → FS → LoadOutcome × FilePhotoLoader
  | 0, l, _ => (.outOfFuel, l)
  | fuel + 1, l, fs =>
    match init_iterator l fs with
    | .error e => (.error e, l)
    | .ok l' =>
      match l'.photo_iterator with
      | none => (.panicked, l')
      | some [] => load_next_photo fuel { l' with photo_iterator := none } fs
      | some (x :: rest) =>
        (outcome (consume_entry fs x), { l' with photo_iterator := some rest })

/-- Iterated calls of load_next_photo with fuel two, one environment value
per call; returns the list of outcomes and the final loader state. -/
def run_loader : FilePhotoLoader → List FS → List LoadOutcome × FilePhotoLoader
  | l, [] => ([], l)
  | l, fs :: rest =>
    let r := load_next_photo 2 l fs
    let r' := run_loader r.2 rest
    (r.1 :: r'.1, r'.2)

/-!
## The GTK slideshow layer (src/ui.rs)

A Picture widget is reduced to the two attributes the code sets on it: the
displayed file and the alternative text.  The UI state gathers the two
picture widgets of the Stack, the name of the visible stack child, the
current_picture tracker of the timer closure, and the photo loader.  The
timer closure registered by build_ui with timeout_add_local becomes the
state transformer timer_tick; it receives the environment of the moment it
fires.  MemoryMonitor only logs and does not influence the slideshow, so it
is not modelled.
-/

/-- A GTK Picture widget, reduced to the attributes the code sets:
Picture::set_file and Picture::set_alternative_text. -/
structure Picture where
  file : Option FsPath
  alternative_text : Option String
deriving DecidableEq, Repr

/-- create_picture_widget: a fresh Picture with no file and the initial
alternative text. -/
def create_picture_widget : Picture :=
  { file := none, alternative_text := some "Digital Picture Frame Display" }

/-- The slideshow state owned by build_ui and its timer closure. -/
structure UiState where
  picture1 : Picture
  picture2 : Picture
  visible_child : String
  current_picture : Nat
  loader : FilePhotoLoader
deriving DecidableEq, Repr

/-- load_image_into_picture: ask the loader for the next photo.  On Ok,
convert the URL back to a file path and set it on the picture (or, if the
conversion fails, only set the failure alternative text).  On Err, log and
set the restart alternative text; the file shown by the picture is left
untouched.  The panicked and outOfFuel branches match no Result value of
the Rust code and are proved unreachable; their arms are arbitrary. -/
def load_image_into_picture (pic : Picture) (l : FilePhotoLoader) (fs : FS) :
    Picture × FilePhotoLoader :=
  match load_next_photo 2 l fs with
  | (.ok photo_url, l') =>
    match fs.to_file_path photo_url with
    | some file_path => ({ pic with file := some file_path }, l')
    | none => ({ pic with alternative_text := some "Failed to load image" }, l')
  | (.error _, l') =>
    ({ pic with alternative_text := some "End of slideshow - restarting" }, l')
  | (.panicked, l') => (pic, l')
  | (.outOfFuel, l') => (pic, l')

/-- build_ui: create the two pictures, make picture1 the visible stack
child, load the first image into picture1, and start the timer with the
tracker at 1.  The function is total: a failed initial load only leaves
picture1 without a file and with the restart alternative text. -/
def build_ui (l : FilePhotoLoader) (fs : FS) : UiState :=
  let picture1 := create_picture_widget
  let picture2 := create_picture_widget
  let r := load_image_into_picture picture1 l fs
  { picture1 := r.1, picture2 := picture2, visible_child := "picture1",
    current_picture := 1, loader := r.2 }

/-- The timer closure of build_ui: pick the hidden picture, load the next
photo into it, unconditionally switch the visible stack child to it, and
toggle the tracker.  Nothing in the closure inspects whether the load
succeeded. -/
def timer_tick (s : UiState) (fs : FS) : UiState :=
  let current := s.current_picture
  let next_name := if current = 1 then "picture2" else "picture1"
  let next_pic := if current = 1 then s.picture2 else s.picture1
  let r := load_image_into_picture next_pic s.loader fs
  let s' := if current = 1 then { s with picture2 := r.1 }
            else { s with picture1 := r.1 }
  { s' with visible_child := next_name, loader := r.2,
            current_picture := if current = 1 then 2 else 1 }

/-!
## Concrete environments

Concrete directory states used by the witness and counterexample theorems.
-/

/-- A concrete regular-file entry. -/
def entryA : DirEntry := { path := "/photos/a.jpg", kind := .file }

/-- A second concrete regular-file entry. -/
def entryB : DirEntry := { path := "/photos/b.png", kind := .file }

/-- A concrete subdirectory entry with no image extension. -/
def entryDir : DirEntry := { path := "/photos/holiday", kind := .directory }

/-- A directory holding entryA and entryB, with canonicalization the
identity and URL conversion prepending and removing a scheme. -/
def fsGood : FS :=
  { read_dir := .ok [.ok entryA, .ok entryB],
    canonicalize := fun p => .ok p,
    from_file_path := fun p => some (String.append "file://" p),
    to_file_path := fun u => some (String.drop u 7) }

/-- The same directory as fsGood, listed in the opposite order. -/
def fsGoodRev : FS :=
  { fsGood with read_dir := .ok [.ok entryB, .ok entryA] }

/-- An empty directory. -/
def fsEmpty : FS :=
  { fsGood with read_dir := .ok [] }

/-- An unreadable directory. -/
def fsUnreadable : FS :=
  { fsGood with read_dir := .error .notFound }

/-- A directory where entryA has been deleted between listing and
resolution: the listing still names it, but canonicalize fails on it. -/
def fsDeletedA : FS :=
  { fsGood with
    canonicalize := fun p =>
      if p = entryA.path then .error .notFound else .ok p }

/-- A directory whose sole listed entry is the subdirectory entryDir. -/
def fsWithDir : FS :=
  { fsGood with read_dir := .ok [.ok entryDir] }

/-!
## Characterization lemmas for load_next_photo
-/

/-- The outcome embedding never produces the panic or fuel markers. -/
theorem outcome_ne_markers (r : Except SourceError Url) :
    outcome r ≠ .panicked ∧ outcome r ≠ .outOfFuel := by
  cases r <;> simp [outcome]

/-- With a cursor positioned at an item, a call consumes that item and
advances the cursor, whatever the resolution outcome. -/
theorem load_next_photo_cons (fuel : Nat) (l : FilePhotoLoader) (fs : FS)
    (x : Except IoError DirEntry) (rest : List (Except IoError DirEntry))
    (h : l.photo_iterator = some (x :: rest)) :
    load_next_photo (fuel + 1) l fs =
      (outcome (consume_entry fs x), { l with photo_iterator := some rest }) := by
  obtain ⟨bd, it⟩ := l
  simp only [FilePhotoLoader.photo_iterator] at h
  subst h
  simp [load_next_photo, init_iterator]

/-- From the not-started state, an unreadable directory fails with
directoryUnreadable and leaves the state untouched. -/
theorem load_next_photo_unreadable (fuel : Nat) (l : FilePhotoLoader)
    (fs : FS) (e : IoError)
    (h : l.photo_iterator = none) (hr : fs.read_dir = .error e) :
    load_next_photo (fuel + 1) l fs = (.error (.directoryUnreadable e), l) := by
  obtain ⟨bd, it⟩ := l
  simp only [FilePhotoLoader.photo_iterator] at h
  subst h
  simp [load_next_photo, init_iterator, hr]

/-- From the not-started state, an empty listing fails with noPhotosFound
and leaves the state untouched. -/
theorem load_next_photo_fresh_empty (fuel : Nat) (l : FilePhotoLoader)
    (fs : FS)
    (h : l.photo_iterator = none) (hr : fs.read_dir = .ok []) :
    load_next_photo (fuel + 1) l fs = (.error .noPhotosFound, l) := by
  obtain ⟨bd, it⟩ := l
  simp only [FilePhotoLoader.photo_iterator] at h
  subst h
  simp [load_next_photo, init_iterator, hr]

/-- From the not-started state, a nonempty listing is installed and its
first item is consumed at once. -/
theorem load_next_photo_fresh_cons (fuel : Nat) (l : FilePhotoLoader)
    (fs : FS) (x : Except IoError DirEntry)
    (rest : List (Except IoError DirEntry))
    (h : l.photo_iterator = none) (hr : fs.read_dir = .ok (x :: rest)) :
    load_next_photo (fuel + 1) l fs =
      (outcome (consume_entry fs x), { l with photo_iterator := some rest }) := by
  obtain ⟨bd, it⟩ := l
  simp only [FilePhotoLoader.photo_iterator] at h
  subst h
  simp [load_next_photo, init_iterator, hr]

/-- An exhausted cursor is dropped and the call restarts on the fresh
state, spending one unit of fuel. -/
theorem load_next_photo_exhausted (fuel : Nat) (l : FilePhotoLoader)
    (fs : FS) (h : l.photo_iterator = some []) :
    load_next_photo (fuel + 1) l fs =
      load_next_photo fuel { l with photo_iterator := none } fs := by
  obtain ⟨bd, it⟩ := l
  simp only [FilePhotoLoader.photo_iterator] at h
  subst h
  simp [load_next_photo, init_iterator]

/-- From the not-started state the recursion is never entered: the result
does not depend on the fuel beyond one unit. -/
theorem load_next_photo_fresh_fuel (fuel : Nat) (l : FilePhotoLoader)
    (fs : FS) (h : l.photo_iterator = none) :
    load_next_photo (fuel + 1) l fs = load_next_photo 1 l fs := by
  match hr : fs.read_dir with
  | .error e =>
    rw [load_next_photo_unreadable fuel l fs e h hr,
      load_next_photo_unreadable 0 l fs e h hr]
  | .ok [] =>
    rw [load_next_photo_fresh_empty fuel l fs h hr,
      load_next_photo_fresh_empty 0 l fs h hr]
  | .ok (x :: rest) =>
    rw [load_next_photo_fresh_cons fuel l fs x rest h hr,
      load_next_photo_fresh_cons 0 l fs x rest h hr]

/-- Two units of fuel always suffice: more fuel never changes the result. -/
theorem load_next_photo_fuel_two (fuel : Nat) (l : FilePhotoLoader)
    (fs : FS) :
    load_next_photo (fuel + 2) l fs = load_next_photo 2 l fs := by
  match h : l.photo_iterator with
  | none =>
    rw [show fuel + 2 = (fuel + 1) + 1 by ring]
    rw [load_next_photo_fresh_fuel (fuel + 1) l fs h,
      ← load_next_photo_fresh_fuel 1 l fs h]
  | some [] =>
    rw [show fuel + 2 = (fuel + 1) + 1 by ring]
    rw [load_next_photo_exhausted (fuel + 1) l fs h,
      load_next_photo_exhausted 1 l fs h]
    exact load_next_photo_fresh_fuel fuel _ fs rfl
  | some (x :: rest) =>
    rw [show fuel + 2 = (fuel + 1) + 1 by ring]
    rw [load_next_photo_cons (fuel + 1) l fs x rest h,
      load_next_photo_cons 1 l fs x rest h]

/-- With at least one unit of fuel, a call from the not-started state
returns a genuine Result: neither the panic nor the fuel marker. -/
theorem load_next_photo_fresh_result (l : FilePhotoLoader) (fs : FS)
    (h : l.photo_iterator = none) :
    (load_next_photo 1 l fs).1 ≠ .panicked ∧
    (load_next_photo 1 l fs).1 ≠ .outOfFuel := by
  match hr : fs.read_dir with
  | .error e => rw [load_next_photo_unreadable 0 l fs e h hr]; simp
  | .ok [] => rw [load_next_photo_fresh_empty 0 l fs h hr]; simp
  | .ok (x :: rest) =>
    rw [load_next_photo_fresh_cons 0 l fs x rest h hr]
    exact outcome_ne_markers (consume_entry fs x)

/-- With two units of fuel a call always returns a genuine Result. -/
theorem load_next_photo_two_result (l : FilePhotoLoader) (fs : FS) :
    (load_next_photo 2 l fs).1 ≠ .panicked ∧
    (load_next_photo 2 l fs).1 ≠ .outOfFuel := by
  match h : l.photo_iterator with
  | none =>
    rw [show (2 : Nat) = 1 + 1 by rfl, load_next_photo_fresh_fuel 1 l fs h]
    exact load_next_photo_fresh_result l fs h
  | some [] =>
    rw [show (2 : Nat) = 1 + 1 by rfl, load_next_photo_exhausted 1 l fs h]
    exact load_next_photo_fresh_result _ fs rfl
  | some (x :: rest) =>
    rw [show (2 : Nat) = 1 + 1 by rfl, load_next_photo_cons 1 l fs x rest h]
    exact outcome_ne_markers (consume_entry fs x)

/-- The unwrap of the cursor Option can never fire: whatever the fuel, the
state and the environment, the call does not panic. -/
theorem load_next_photo_never_panics (fuel : Nat) (l : FilePhotoLoader)
    (fs : FS) : (load_next_photo fuel l fs).1 ≠ .panicked := by
  induction fuel generalizing l with
  | zero => simp [load_next_photo]
  | succ n ih =>
    match h : l.photo_iterator with
    | none =>
      rw [load_next_photo_fresh_fuel n l fs h]
      exact (load_next_photo_fresh_result l fs h).1
    | some [] =>
      rw [load_next_photo_exhausted n l fs h]
      exact ih _
    | some (x :: rest) =>
      rw [load_next_photo_cons n l fs x rest h]
      exact (outcome_ne_markers (consume_entry fs x)).1

/-- Specialization of load_next_photo_cons at fuel two. -/
theorem load2_cons (l : FilePhotoLoader) (fs : FS)
    (x : Except IoError DirEntry) (rest : List (Except IoError DirEntry))
    (h : l.photo_iterator = some (x :: rest)) :
    load_next_photo 2 l fs =
      (outcome (consume_entry fs x), { l with photo_iterator := some rest }) := by
  rw [show (2 : Nat) = 1 + 1 by rfl]
  exact load_next_photo_cons 1 l fs x rest h

/-- Specialization of load_next_photo_unreadable at fuel two. -/
theorem load2_unreadable (l : FilePhotoLoader) (fs : FS) (e : IoError)
    (h : l.photo_iterator = none) (hr : fs.read_dir = .error e) :
    load_next_photo 2 l fs = (.error (.directoryUnreadable e), l) := by
  rw [show (2 : Nat) = 1 + 1 by rfl]
  exact load_next_photo_unreadable 1 l fs e h hr

/-- Specialization of load_next_photo_fresh_empty at fuel two. -/
theorem load2_fresh_empty (l : FilePhotoLoader) (fs : FS)
    (h : l.photo_iterator = none) (hr : fs.read_dir = .ok []) :
    load_next_photo 2 l fs = (.error .noPhotosFound, l) := by
  rw [show (2 : Nat) = 1 + 1 by rfl]
  exact load_next_photo_fresh_empty 1 l fs h hr

/-- Specialization of load_next_photo_fresh_cons at fuel two. -/
theorem load2_fresh_cons (l : FilePhotoLoader) (fs : FS)
    (x : Except IoError DirEntry) (rest : List (Except IoError DirEntry))
    (h : l.photo_iterator = none) (hr : fs.read_dir = .ok (x :: rest)) :
    load_next_photo 2 l fs =
      (outcome (consume_entry fs x), { l with photo_iterator := some rest }) := by
  rw [show (2 : Nat) = 1 + 1 by rfl]
  exact load_next_photo_fresh_cons 1 l fs x rest h hr

/-- Exhaustion followed by a nonempty fresh listing: the restarted pass
begins at once with the first item of the new listing. -/
theorem load2_exhausted_cons (l : FilePhotoLoader) (fs : FS)
    (x : Except IoError DirEntry) (rest : List (Except IoError DirEntry))
    (h : l.photo_iterator = some []) (hr : fs.read_dir = .ok (x :: rest)) :
    load_next_photo 2 l fs =
      (outcome (consume_entry fs x), { l with photo_iterator := some rest }) := by
  rw [show (2 : Nat) = 1 + 1 by rfl, load_next_photo_exhausted 1 l fs h,
    load_next_photo_fresh_cons 0 _ fs x rest rfl hr]

/-- Exhaustion followed by an empty fresh listing: the call fails with
noPhotosFound and the source is left not started. -/
theorem load2_exhausted_empty (l : FilePhotoLoader) (fs : FS)
    (h : l.photo_iterator = some []) (hr : fs.read_dir = .ok []) :
    load_next_photo 2 l fs =
      (.error .noPhotosFound, { l with photo_iterator := none }) := by
  rw [show (2 : Nat) = 1 + 1 by rfl, load_next_photo_exhausted 1 l fs h,
    load_next_photo_fresh_empty 0 _ fs rfl hr]

/-!
## Lemmas about iterated calls
-/

/-- Unfolding of run_loader on a first call. -/
theorem run_loader_cons (l : FilePhotoLoader) (fs : FS) (rest : List FS) :
    run_loader l (fs :: rest) =
      ((load_next_photo 2 l fs).1 ::
        (run_loader (load_next_photo 2 l fs).2 rest).1,
       (run_loader (load_next_photo 2 l fs).2 rest).2) := rfl

/-- run_loader distributes over list append. -/
theorem run_loader_append (l : FilePhotoLoader) (a b : List FS) :
    run_loader l (a ++ b) =
      ((run_loader l a).1 ++ (run_loader (run_loader l a).2 b).1,
       (run_loader (run_loader l a).2 b).2) := by
  induction a generalizing l with
  | nil => simp [run_loader]
  | cons fs rest ih =>
    simp only [List.cons_append, run_loader_cons, ih, List.append_eq]

/-- Spinning on an empty directory: from the not-started state, every one
of k calls fails with noPhotosFound and the state never changes. -/
theorem run_loader_empty_spin (k : Nat) (l : FilePhotoLoader) (fs : FS)
    (h : l.photo_iterator = none) (hr : fs.read_dir = .ok []) :
    run_loader l (List.replicate k fs) =
      (List.replicate k (.error .noPhotosFound), l) := by
  induction k with
  | zero => rfl
  | succ n ih =>
    rw [List.replicate_succ, run_loader_cons, load2_fresh_empty l fs h hr]
    simp [ih, List.replicate_succ]

/-- Consuming one whole pass: with the cursor holding the item list it, one
call per item consumes them in order and leaves the cursor exhausted. -/
theorem run_loader_pass (it : List (Except IoError DirEntry))
    (l : FilePhotoLoader) (fs : FS) (h : l.photo_iterator = some it) :
    run_loader l (List.replicate it.length fs) =
      (it.map (fun x => outcome (consume_entry fs x)),
       { l with photo_iterator := some [] }) := by
  induction it generalizing l with
  | nil =>
    obtain ⟨bd, itl⟩ := l
    simp only [FilePhotoLoader.photo_iterator] at h
    subst h
    rfl
  | cons x rest ih =>
    rw [List.length_cons, List.replicate_succ, run_loader_cons,
      load2_cons l fs x rest h]
    rw [ih { l with photo_iterator := some rest } rfl]
    simp

/-!
## Lemmas about entry resolution
-/

/-- Entry resolution only consults canonicalize and from_file_path. -/
theorem resolve_entry_congr (fs fs2 : FS) (e : DirEntry)
    (hc : fs2.canonicalize = fs.canonicalize)
    (hu : fs2.from_file_path = fs.from_file_path) :
    resolve_entry fs2 e = resolve_entry fs e := by
  simp [resolve_entry, hc, hu]

/-- Every failure of entry resolution is a resolutionFailed error. -/
theorem resolve_entry_error_shape (fs : FS) (e : DirEntry)
    (err : SourceError) (h : resolve_entry fs e = .error err) :
    ∃ c, err = .resolutionFailed c := by
  unfold resolve_entry at h
  match hc : fs.canonicalize e.path with
  | .error io =>
    rw [hc] at h
    injection h with h
    exact ⟨some io, h.symm⟩
  | .ok abs =>
    rw [hc] at h
    dsimp only at h
    match hu : fs.from_file_path abs with
    | none =>
      rw [hu] at h
      injection h with h
      exact ⟨none, h.symm⟩
    | some u =>
      rw [hu] at h
      cases h

/-!
## Claims about the photo source
-/

/-- Claim C9: load_next_photo never panics: the internal unwrap of the
enumeration-cursor Option is unreachable as a panic because the cursor is
always populated where it is dereferenced, and with enough fuel every call
returns a typed Result (an ok or error outcome). -/
theorem C9_never_panics (fuel : Nat) (l : FilePhotoLoader) (fs : FS) :
    (load_next_photo fuel l fs).1 ≠ .panicked ∧
    ∃ r : Except SourceError Url,
      (load_next_photo (fuel + 2) l fs).1 = outcome r := by
  refine ⟨load_next_photo_never_panics fuel l fs, ?_⟩
  rw [load_next_photo_fuel_two fuel l fs]
  have h2 := load_next_photo_two_result l fs
  cases hq : (load_next_photo 2 l fs).1 with
  | ok u => exact ⟨.ok u, rfl⟩
  | error e => exact ⟨.error e, rfl⟩
  | panicked => exact (h2.1 hq).elim
  | outOfFuel => exact (h2.2 hq).elim

/-- Claim C5: the restart-on-exhaustion recursion is bounded: any fuel of
at least two gives the same result as fuel two, the fuel marker is never
returned, and when the pass is exhausted and the fresh listing is empty the
call fails with noPhotosFound, resetting the source to not started, instead
of recursing again. -/
theorem C5_bounded_restart (l : FilePhotoLoader) (fs : FS) (fuel : Nat)
    (h : 2 ≤ fuel) :
    load_next_photo fuel l fs = load_next_photo 2 l fs ∧
    (load_next_photo fuel l fs).1 ≠ .outOfFuel ∧
    (l.photo_iterator = some [] → fs.read_dir = .ok [] →
      load_next_photo fuel l fs =
        (.error .noPhotosFound, { l with photo_iterator := none })) := by
  obtain ⟨k, rfl⟩ : ∃ k, fuel = k + 2 := ⟨fuel - 2, by omega⟩
  refine ⟨load_next_photo_fuel_two k l fs, ?_, ?_⟩
  · rw [load_next_photo_fuel_two k l fs]
    exact (load_next_photo_two_result l fs).2
  · intro hit hr
    rw [load_next_photo_fuel_two k l fs]
    exact load2_exhausted_empty l fs hit hr

/-- Witness for C5: an exhausted source over a now-empty directory, called
with generous fuel, fails with noPhotosFound after exactly one restart. -/
theorem C5_bounded_restart_witness :
    2 ≤ 5 ∧
    (load_next_photo 5 ⟨"d", some []⟩ fsEmpty =
        load_next_photo 2 ⟨"d", some []⟩ fsEmpty ∧
      (load_next_photo 5 ⟨"d", some []⟩ fsEmpty).1 ≠ .outOfFuel ∧
      ((⟨"d", some []⟩ : FilePhotoLoader).photo_iterator = some [] →
        fsEmpty.read_dir = .ok [] →
        load_next_photo 5 ⟨"d", some []⟩ fsEmpty =
          (.error .noPhotosFound,
           { (⟨"d", some []⟩ : FilePhotoLoader) with photo_iterator := none }))) :=
  ⟨by norm_num, C5_bounded_restart ⟨"d", some []⟩ fsEmpty 5 (by norm_num)⟩

/-- Claim C3: over an empty directory every call fails with noPhotosFound
and the source stays in the not-started state, so the failing calls repeat
identically; as soon as a call observes a listing with a resolvable entry,
it succeeds. -/
theorem C3_empty_directory (l : FilePhotoLoader) (fs fs2 : FS) (k : Nat)
    (e : DirEntry) (rest : List (Except IoError DirEntry)) (u : Url)
    (hl : l.photo_iterator = none)
    (hfs : fs.read_dir = .ok [])
    (hfs2 : fs2.read_dir = .ok (.ok e :: rest))
    (hres : resolve_entry fs2 e = .ok u) :
    run_loader l (List.replicate k fs) =
      (List.replicate k (.error .noPhotosFound), l) ∧
    (load_next_photo 2 l fs2).1 = .ok u := by
  refine ⟨run_loader_empty_spin k l fs hl hfs, ?_⟩
  rw [load2_fresh_cons l fs2 (.ok e) rest hl hfs2]
  simp [consume_entry, hres, outcome]

/-- Witness for C3: three calls over the empty directory all fail and keep
the source untouched; a call after entryA appears succeeds. -/
theorem C3_empty_directory_witness :
    run_loader (FilePhotoLoader.new "d") (List.replicate 3 fsEmpty) =
      (List.replicate 3 (.error .noPhotosFound), FilePhotoLoader.new "d") ∧
    (load_next_photo 2 (FilePhotoLoader.new "d") fsGood).1 =
      .ok "file:///photos/a.jpg" :=
  C3_empty_directory (FilePhotoLoader.new "d") fsEmpty fsGood 3 entryA
    [.ok entryB] "file:///photos/a.jpg" rfl rfl rfl (by decide)

/-- Claim C4: a failed resolution is reported as resolutionFailed for that
one call while the cursor advances past the bad entry; the immediately
following call consumes the next entry of the pass instead of retrying the
bad one. -/
theorem C4_resolution_failure (l : FilePhotoLoader) (fs fs2 : FS)
    (bad good : DirEntry) (rest : List (Except IoError DirEntry))
    (err : SourceError) (u : Url)
    (hl : l.photo_iterator = some (.ok bad :: .ok good :: rest))
    (hbad : resolve_entry fs bad = .error err)
    (hgood : resolve_entry fs2 good = .ok u) :
    (∃ c, err = .resolutionFailed c) ∧
    load_next_photo 2 l fs =
      (.error err, { l with photo_iterator := some (.ok good :: rest) }) ∧
    (load_next_photo 2
        { l with photo_iterator := some (.ok good :: rest) } fs2).1 = .ok u := by
  refine ⟨resolve_entry_error_shape fs bad err hbad, ?_, ?_⟩
  · rw [load2_cons l fs (.ok bad) (.ok good :: rest) hl]
    simp [consume_entry, hbad, outcome]
  · rw [load2_cons _ fs2 (.ok good) rest rfl]
    simp [consume_entry, hgood, outcome]

/-- Witness for C4: entryA is deleted between listing and resolution; the
call on its slot fails with resolutionFailed, and the next call returns
entryB. -/
theorem C4_resolution_failure_witness :
    (∃ c, (SourceError.resolutionFailed (some .notFound)) =
      .resolutionFailed c) ∧
    load_next_photo 2 ⟨"d", some [.ok entryA, .ok entryB]⟩ fsDeletedA =
      (.error (.resolutionFailed (some .notFound)),
       { (⟨"d", some [.ok entryA, .ok entryB]⟩ : FilePhotoLoader) with
          photo_iterator := some [.ok entryB] }) ∧
    (load_next_photo 2
        { (⟨"d", some [.ok entryA, .ok entryB]⟩ : FilePhotoLoader) with
           photo_iterator := some [.ok entryB] } fsDeletedA).1 =
      .ok "file:///photos/b.png" :=
  C4_resolution_failure ⟨"d", some [.ok entryA, .ok entryB]⟩ fsDeletedA
    fsDeletedA entryA entryB [] (.resolutionFailed (some .notFound))
    "file:///photos/b.png" rfl (by decide) (by decide)

/-- Claim C6: an unreadable base directory makes the call fail with
directoryUnreadable carrying the I/O cause, with the state left exactly as
it was (still not started); a later call against a readable listing with a
resolvable first entry succeeds. -/
theorem C6_directory_unreadable (l : FilePhotoLoader) (fs fs2 : FS)
    (e : IoError) (ent : DirEntry) (rest : List (Except IoError DirEntry))
    (u : Url)
    (hl : l.photo_iterator = none)
    (hfs : fs.read_dir = .error e)
    (hfs2 : fs2.read_dir = .ok (.ok ent :: rest))
    (hres : resolve_entry fs2 ent = .ok u) :
    load_next_photo 2 l fs = (.error (.directoryUnreadable e), l) ∧
    (load_next_photo 2 l fs2).1 = .ok u := by
  refine ⟨load2_unreadable l fs e hl hfs, ?_⟩
  rw [load2_fresh_cons l fs2 (.ok ent) rest hl hfs2]
  simp [consume_entry, hres, outcome]

/-- Witness for C6: a missing directory fails with the propagated notFound
cause and the untouched state; once the directory is readable the next call
returns entryA. -/
theorem C6_directory_unreadable_witness :
    load_next_photo 2 (FilePhotoLoader.new "d") fsUnreadable =
      (.error (.directoryUnreadable .notFound), FilePhotoLoader.new "d") ∧
    (load_next_photo 2 (FilePhotoLoader.new "d") fsGood).1 =
      .ok "file:///photos/a.jpg" :=
  C6_directory_unreadable (FilePhotoLoader.new "d") fsUnreadable fsGood
    .notFound entryA [.ok entryB] "file:///photos/a.jpg" rfl rfl rfl
    (by decide)

/-- Claim C10: no filtering by extension or file type: whatever directory
entry stands at the cursor, of any path and any kind, a call consumes it
and, when it canonicalizes and converts, returns it as the photo
reference. -/
theorem C10_no_filtering (l : FilePhotoLoader) (fs : FS) (e : DirEntry)
    (rest : List (Except IoError DirEntry)) (u : Url)
    (hl : l.photo_iterator = some (.ok e :: rest))
    (hres : resolve_entry fs e = .ok u) :
    load_next_photo 2 l fs =
      (.ok u, { l with photo_iterator := some rest }) := by
  rw [load2_cons l fs (.ok e) rest hl]
  simp [consume_entry, hres, outcome]

/-- Witness for C10: a subdirectory entry with no image extension is
returned as a photo reference like any other entry. -/
theorem C10_no_filtering_witness :
    load_next_photo 2 ⟨"d", some [.ok entryDir]⟩ fsWithDir =
      (.ok "file:///photos/holiday",
       { (⟨"d", some [.ok entryDir]⟩ : FilePhotoLoader) with
          photo_iterator := some [] }) :=
  C10_no_filtering ⟨"d", some [.ok entryDir]⟩ fsWithDir entryDir []
    "file:///photos/holiday" rfl (by decide)

/-- Claim C1: over a directory of N entries that all resolve, N calls
consume one full pass, and the following call restarts a fresh pass over
the same entry set (possibly in a different order) and returns a reference
already seen among the first N. -/
theorem C1_cyclic_restart (d : String) (e0 e2 : DirEntry)
    (es0 es2 : List DirEntry) (fs fs2 : FS)
    (hfs : fs.read_dir = .ok ((e0 :: es0).map Except.ok))
    (hfs2 : fs2.read_dir = .ok ((e2 :: es2).map Except.ok))
    (hperm : (e2 :: es2).Perm (e0 :: es0))
    (hc : fs2.canonicalize = fs.canonicalize)
    (hu : fs2.from_file_path = fs.from_file_path)
    (hres : ∀ e ∈ (e0 :: es0), ∃ u, resolve_entry fs e = .ok u) :
    ∃ outs u,
      (run_loader (FilePhotoLoader.new d)
          (List.replicate (e0 :: es0).length fs ++ [fs2])).1 =
        outs ++ [LoadOutcome.ok u] ∧
      outs.length = (e0 :: es0).length ∧
      LoadOutcome.ok u ∈ outs := by
  obtain ⟨u, hru⟩ := hres e2 (hperm.subset (List.mem_cons_self e2 es2))
  have hfs' : fs.read_dir = .ok (Except.ok e0 :: es0.map Except.ok) := by
    simpa using hfs
  have hfs2' : fs2.read_dir = .ok (Except.ok e2 :: es2.map Except.ok) := by
    simpa using hfs2
  have hfirst :
      run_loader (FilePhotoLoader.new d)
          (List.replicate (e0 :: es0).length fs) =
        ((e0 :: es0).map (fun e => outcome (resolve_entry fs e)),
         { FilePhotoLoader.new d with photo_iterator := some [] }) := by
    rw [List.length_cons, List.replicate_succ, run_loader_cons,
      load2_fresh_cons (FilePhotoLoader.new d) fs (.ok e0) (es0.map .ok)
        rfl hfs']
    have hpass := run_loader_pass (es0.map Except.ok)
      { FilePhotoLoader.new d with
         photo_iterator := some (es0.map Except.ok) } fs rfl
    rw [List.length_map] at hpass
    rw [hpass]
    simp [consume_entry, List.map_map]
  have hlast :
      load_next_photo 2
          { FilePhotoLoader.new d with photo_iterator := some [] } fs2 =
        (.ok u,
         { FilePhotoLoader.new d with
            photo_iterator := some (es2.map Except.ok) }) := by
    rw [load2_exhausted_cons _ fs2 (.ok e2) (es2.map .ok) rfl hfs2']
    have hsame : resolve_entry fs2 e2 = resolve_entry fs e2 :=
      resolve_entry_congr fs fs2 e2 hc hu
    simp [consume_entry, hsame, hru, outcome]
  refine ⟨(e0 :: es0).map (fun e => outcome (resolve_entry fs e)), u,
    ?_, ?_, ?_⟩
  · rw [run_loader_append, hfirst]
    simp [run_loader_cons, hlast, run_loader]
  · simp
  · refine List.mem_map.mpr
      ⟨e2, hperm.subset (List.mem_cons_self e2 es2), ?_⟩
    rw [hru]
    rfl

/-- Witness for C1: a two-entry directory, consumed in one order and then
relisted in the opposite order; the third call returns a reference already
seen among the first two. -/
theorem C1_cyclic_restart_witness :
    ∃ outs u,
      (run_loader (FilePhotoLoader.new "frame")
          (List.replicate (entryA :: [entryB]).length fsGood ++
            [fsGoodRev])).1 =
        outs ++ [LoadOutcome.ok u] ∧
      outs.length = (entryA :: [entryB]).length ∧
      LoadOutcome.ok u ∈ outs :=
  C1_cyclic_restart "frame" entryA entryB [entryB] [entryA] fsGood fsGoodRev
    rfl rfl (by decide) rfl rfl
    (by
      intro e he
      simp only [List.mem_cons, List.not_mem_nil, or_false] at he
      rcases he with rfl | rfl
      · exact ⟨"file:///photos/a.jpg", by decide⟩
      · exact ⟨"file:///photos/b.png", by decide⟩)

/-!
## Claims about the slideshow layer
-/

/-- A slideshow state showing a good image in picture1, as reached after a
successful initial load: the tracker is at 1 and picture1 is visible. -/
def uiShowingA : UiState :=
  { picture1 := { file := some "/photos/a.jpg",
                  alternative_text := some "Digital Picture Frame Display" },
    picture2 := create_picture_widget,
    visible_child := "picture1",
    current_picture := 1,
    loader := FilePhotoLoader.new "d" }

/-- Counterexample to claim C2: a tick whose fetch fails does not keep
showing the current image: it swaps the visible stack child from picture1
to picture2, and picture2 holds no image at all (a blank frame). -/
theorem C2_counterexample :
    (load_next_photo 2 uiShowingA.loader fsUnreadable).1 =
      .error (.directoryUnreadable .notFound) ∧
    uiShowingA.visible_child = "picture1" ∧
    (timer_tick uiShowingA fsUnreadable).visible_child = "picture2" ∧
    (timer_tick uiShowingA fsUnreadable).picture2.file = none :=
  ⟨rfl, rfl, rfl, rfl⟩

/-- Claim C2 as amended: when the fetch fails, the tick leaves the image
files of both pictures unchanged (only the hidden picture receives the
failure alternative text) but still swaps the visible stack child to the
other picture and toggles the tracker, so the display moves away from the
current image to the other buffer, stale or blank, rather than staying on
it. -/
theorem C2_failed_fetch_still_swaps (s : UiState) (fs : FS)
    (e : SourceError)
    (h : (load_next_photo 2 s.loader fs).1 = .error e) :
    (timer_tick s fs).picture1.file = s.picture1.file ∧
    (timer_tick s fs).picture2.file = s.picture2.file ∧
    (timer_tick s fs).visible_child =
      (if s.current_picture = 1 then "picture2" else "picture1") ∧
    (timer_tick s fs).current_picture =
      (if s.current_picture = 1 then 2 else 1) ∧
    (timer_tick s fs).loader = (load_next_photo 2 s.loader fs).2 := by
  obtain ⟨l2, hpair⟩ : ∃ l2, load_next_photo 2 s.loader fs = (.error e, l2) :=
    ⟨(load_next_photo 2 s.loader fs).2, by rw [← h]⟩
  by_cases hc : s.current_picture = 1 <;>
    simp [timer_tick, load_image_into_picture, hpair, hc]

/-- Witness for C2 as amended, at the state showing entryA over a directory
that has become unreadable. -/
theorem C2_failed_fetch_still_swaps_witness :
    ((load_next_photo 2 uiShowingA.loader fsUnreadable).1 =
      .error (.directoryUnreadable .notFound)) ∧
    ((timer_tick uiShowingA fsUnreadable).picture1.file =
        uiShowingA.picture1.file ∧
     (timer_tick uiShowingA fsUnreadable).picture2.file =
        uiShowingA.picture2.file ∧
     (timer_tick uiShowingA fsUnreadable).visible_child =
        (if uiShowingA.current_picture = 1 then "picture2" else "picture1") ∧
     (timer_tick uiShowingA fsUnreadable).current_picture =
        (if uiShowingA.current_picture = 1 then 2 else 1) ∧
     (timer_tick uiShowingA fsUnreadable).loader =
        (load_next_photo 2 uiShowingA.loader fsUnreadable).2) :=
  ⟨rfl, C2_failed_fetch_still_swaps uiShowingA fsUnreadable
    (.directoryUnreadable .notFound) rfl⟩

/-- Counterexample to claim C7: two consecutive invocations of the timer
callback from the same shown state produce different outputs: the first
makes picture2 visible, the second makes picture1 visible again, and the
two resulting states differ. -/
theorem C7_counterexample :
    (timer_tick uiShowingA fsGood).visible_child = "picture2" ∧
    (timer_tick (timer_tick uiShowingA fsGood) fsGood).visible_child =
      "picture1" ∧
    timer_tick (timer_tick uiShowingA fsGood) fsGood ≠
      timer_tick uiShowingA fsGood := by
  refine ⟨rfl, rfl, ?_⟩
  decide

/-- Claim C7 as amended: the timer callback takes no time value and is
never idempotent: every invocation toggles the tracker, and the visible
child after a second invocation always differs from the visible child
after the first, whatever the state and the environments. -/
theorem C7_tick_never_idempotent (s : UiState) (fs fs2 : FS) :
    (timer_tick (timer_tick s fs) fs2).visible_child ≠
      (timer_tick s fs).visible_child ∧
    (timer_tick s fs).current_picture ≠ s.current_picture := by
  have h1 : ∀ t : UiState, ∀ fsx : FS, (timer_tick t fsx).current_picture =
      (if t.current_picture = 1 then 2 else 1) := by
    intro t fsx
    by_cases hc : t.current_picture = 1 <;> simp [timer_tick, hc]
  have h2 : ∀ t : UiState, ∀ fsx : FS, (timer_tick t fsx).visible_child =
      (if t.current_picture = 1 then "picture2" else "picture1") := by
    intro t fsx
    by_cases hc : t.current_picture = 1 <;> simp [timer_tick, hc]
  constructor
  · rw [h2, h2, h1]
    by_cases hc : s.current_picture = 1 <;> simp [hc]
  · rw [h1]
    by_cases hc : s.current_picture = 1
    · rw [hc]; simp
    · simp [hc]
      exact fun hh => hc hh.symm

/-- Counterexample to claim C8: with an unreadable directory the initial
load fails, yet construction completes with no error signal: the visible
picture1 has no file, only a substituted alternative text. -/
theorem C8_counterexample :
    (load_next_photo 2 (FilePhotoLoader.new "test_images") fsUnreadable).1 =
      .error (.directoryUnreadable .notFound) ∧
    build_ui (FilePhotoLoader.new "test_images") fsUnreadable =
      { picture1 := { file := none,
                      alternative_text :=
                        some "End of slideshow - restarting" },
        picture2 := create_picture_widget,
        visible_child := "picture1",
        current_picture := 1,
        loader := FilePhotoLoader.new "test_images" } :=
  ⟨rfl, rfl⟩

/-- Claim C8 as amended: build_ui is total and never reports a failure;
when the initial load fails it still starts the slideshow, with picture1
visible yet holding no file, only the restart alternative text, and the
tracker at 1. -/
theorem C8_construction_never_fails (l : FilePhotoLoader) (fs : FS)
    (e : SourceError)
    (h : (load_next_photo 2 l fs).1 = .error e) :
    (build_ui l fs).picture1.file = none ∧
    (build_ui l fs).picture1.alternative_text =
      some "End of slideshow - restarting" ∧
    (build_ui l fs).visible_child = "picture1" ∧
    (build_ui l fs).current_picture = 1 ∧
    (build_ui l fs).loader = (load_next_photo 2 l fs).2 := by
  obtain ⟨l2, hpair⟩ : ∃ l2, load_next_photo 2 l fs = (.error e, l2) :=
    ⟨(load_next_photo 2 l fs).2, by rw [← h]⟩
  simp [build_ui, load_image_into_picture, create_picture_widget, hpair]

/-- Witness for C8 as amended, at an unreadable photo directory. -/
theorem C8_construction_never_fails_witness :
    ((load_next_photo 2 (FilePhotoLoader.new "test_images")
        fsUnreadable).1 = .error (.directoryUnreadable .notFound)) ∧
    ((build_ui (FilePhotoLoader.new "test_images")
        fsUnreadable).picture1.file = none ∧
     (build_ui (FilePhotoLoader.new "test_images")
        fsUnreadable).picture1.alternative_text =
          some "End of slideshow - restarting" ∧
     (build_ui (FilePhotoLoader.new "test_images")
        fsUnreadable).visible_child = "picture1" ∧
     (build_ui (FilePhotoLoader.new "test_images")
        fsUnreadable).current_picture = 1 ∧
     (build_ui (FilePhotoLoader.new "test_images")
        fsUnreadable).loader =
          (load_next_photo 2 (FilePhotoLoader.new "test_images")
            fsUnreadable).2) :=
  ⟨rfl, C8_construction_never_fails (FilePhotoLoader.new "test_images")
    fsUnreadable (.directoryUnreadable .notFound) rfl⟩
